import Mathlib

/-!
Shallow embedding of the asr-debugger host (`src/main.rs`): the debugger
timer state machine, the liveness guard, the tick-scheduler arithmetic,
the tick statistics, and the module load lifecycle.

Conventions of the embedding:
* Durations (`std::time::Duration`, `Instant`) become `Nat` nanoseconds;
  the signed `time::Duration` of the game time becomes `Int` nanoseconds.
* The `f64` exponential moving average is embedded in exact rational
  arithmetic (`ℚ`).
* Ambient effects (the wall clock used for log timestamps, the file
  system, the wasm engine's `compile`/`instantiate`) are passed in
  explicitly as data, so every function is pure and executable.
-/

/-- Mirrors `livesplit_auto_splitting::TimerState` (the four timer phases). -/
inductive TimerState
  | notRunning
  | running
  | paused
  | ended
  deriving DecidableEq, Repr

/-- Mirrors `livesplit_auto_splitting::LogLevel`. -/
inductive LogLevel
  | trace
  | debug
  | info
  | warning
  | error
  deriving DecidableEq, Repr

/-- Mirrors `enum LogType` (main.rs lines 1021-1024). -/
inductive LogType
  | runtime (level : LogLevel)
  | autoSplitterMessage
  deriving DecidableEq, Repr

/-- Mirrors `enum GameTimeState` (main.rs lines 1070-1076). -/
inductive GameTimeState
  | notInitialized
  | paused
  | running
  deriving DecidableEq, Repr

/-- Mirrors `struct LogMessage` (main.rs lines 1064-1068). -/
structure LogMessage where
  time : String
  message : String
  ty : LogType
  deriving DecidableEq, Repr

/-- Mirrors `struct DebuggerTimerState` (main.rs lines 1026-1035).  The
`time_zone` field is dropped: it only feeds the wall-clock timestamp of
log entries, which the embedding passes in as an explicit `now` string.
The source field named "variables" is called `vars` here because that
word is reserved in Lean; it is the ordered key→string `IndexMap`. -/
structure DebuggerTimerState where
  timer_state : TimerState
  game_time : Int
  game_time_state : GameTimeState
  split_index : Nat
  vars : List (String × String)
  logs : List LogMessage
  last_logs_len : Nat
  deriving DecidableEq, Repr

namespace DebuggerTimerState

/-- Mirrors `DebuggerTimerState::log` (main.rs lines 1051-1061); `now` is
the formatted wall-clock time the Rust code computes from
`OffsetDateTime::now_utc()`. -/
def log (s : DebuggerTimerState) (now : String) (message : String) (ty : LogType) :
    DebuggerTimerState :=
  { s with logs := s.logs ++ [⟨now, message, ty⟩] }

/-- Mirrors `DebuggerTimerState::start` (main.rs lines 1188-1192). -/
def start (s : DebuggerTimerState) : DebuggerTimerState :=
  if s.timer_state = .notRunning then { s with timer_state := .running } else s

/-- Mirrors `DebuggerTimerState::reset` (main.rs lines 1194-1200). -/
def reset (s : DebuggerTimerState) : DebuggerTimerState :=
  { s with
    timer_state := .notRunning
    split_index := 0
    game_time := 0
    game_time_state := .notInitialized
    vars := [] }

/-- Mirrors `DebuggerTimerState::clear` (main.rs lines 1202-1204): its body
is exactly `self.reset()`; in particular it does not touch `logs`. -/
def clear (s : DebuggerTimerState) : DebuggerTimerState :=
  s.reset

end DebuggerTimerState

/-- Mirrors `IndexMap::entry(key).or_default()` followed by overwriting the
value (main.rs lines 1159-1164): an existing key keeps its position and
gets the new value; a new key is appended at the end. -/
def indexMapSet : List (String × String) → String → String → List (String × String)
  | [], key, value => [(key, value)]
  | p :: rest, key, value =>
    if p.1 = key then (p.1, value) :: rest else p :: indexMapSet rest key value

namespace DebuggerTimer

/-- Mirrors `<DebuggerTimer as Timer>::start` (main.rs lines 1102-1108). -/
def start (now : String) (s : DebuggerTimerState) : DebuggerTimerState :=
  if s.timer_state = .notRunning then
    (s.start).log now "Timer started." (.runtime .debug)
  else s

/-- Mirrors `<DebuggerTimer as Timer>::split` (main.rs lines 1110-1116). -/
def split (now : String) (s : DebuggerTimerState) : DebuggerTimerState :=
  if s.timer_state = .running then
    DebuggerTimerState.log { s with split_index := s.split_index + 1 }
      now "Splitted." (.runtime .debug)
  else s

/-- Mirrors `<DebuggerTimer as Timer>::skip_split` (main.rs lines 1118-1124). -/
def skip_split (now : String) (s : DebuggerTimerState) : DebuggerTimerState :=
  if s.timer_state = .running then
    DebuggerTimerState.log { s with split_index := s.split_index + 1 }
      now "Split skipped." (.runtime .debug)
  else s

/-- Mirrors `<DebuggerTimer as Timer>::undo_split` (main.rs lines 1126-1135).
Rust's `usize::saturating_sub 1` is exactly Lean's truncated `Nat`
subtraction. -/
def undo_split (now : String) (s : DebuggerTimerState) : DebuggerTimerState :=
  let s1 := if s.timer_state = .ended then { s with timer_state := .running } else s
  if s1.timer_state = .running then
    DebuggerTimerState.log { s1 with split_index := s1.split_index - 1 }
      now "Split undone." (.runtime .debug)
  else s1

/-- Mirrors `<DebuggerTimer as Timer>::reset` (main.rs lines 1137-1141). -/
def reset (now : String) (s : DebuggerTimerState) : DebuggerTimerState :=
  (s.reset).log now "Run reset." (.runtime .debug)

/-- Mirrors `<DebuggerTimer as Timer>::set_game_time` (main.rs lines 1143-1149). -/
def set_game_time (time : Int) (s : DebuggerTimerState) : DebuggerTimerState :=
  let s1 := { s with game_time := time }
  if s1.game_time_state = .notInitialized then
    { s1 with game_time_state := .running }
  else s1

/-- Mirrors `<DebuggerTimer as Timer>::pause_game_time` (main.rs lines 1151-1153). -/
def pause_game_time (s : DebuggerTimerState) : DebuggerTimerState :=
  { s with game_time_state := .paused }

/-- Mirrors `<DebuggerTimer as Timer>::resume_game_time` (main.rs lines 1155-1157). -/
def resume_game_time (s : DebuggerTimerState) : DebuggerTimerState :=
  { s with game_time_state := .running }

/-- Mirrors `<DebuggerTimer as Timer>::set_variable` (main.rs lines 1159-1164). -/
def set_variable (key value : String) (s : DebuggerTimerState) : DebuggerTimerState :=
  { s with vars := indexMapSet s.vars key value }

end DebuggerTimer

/-! ## Liveness guard (main.rs lines 174-196)

The behaviour of the module's execution lock across successive
acquisition attempts is abstracted as a predicate `avail : Nat → Bool`
telling whether the i-th `try_lock` attempt would succeed. -/

/-- Result of `SharedState::try_lock`: which attempt (if any) obtained the
guard, how many `try_lock` attempts were made, and how many 1ms sleeps
were performed. -/
structure TryLockResult where
  guard : Option Nat
  attempts : Nat
  sleeps : Nat
  deriving DecidableEq, Repr

/-- Loop body of `SharedState::try_lock` (main.rs lines 184-195): `fuel`
attempts remain, the next attempt has index `i`; each failed attempt is
followed by a 1ms sleep. -/
def tryLockLoop (avail : Nat → Bool) : Nat → Nat → TryLockResult
  | 0, _ => ⟨none, 0, 0⟩
  | fuel + 1, i =>
    if avail i then ⟨some i, 1, 0⟩
    else
      let r := tryLockLoop avail fuel (i + 1)
      ⟨r.guard, r.attempts + 1, r.sleeps + 1⟩

/-- Mirrors `SharedState::try_lock` (main.rs lines 184-195): at most 100
attempts starting at index 0. -/
def SharedState.try_lock (avail : Nat → Bool) : TryLockResult :=
  tryLockLoop avail 100 0

/-- Mirrors `SharedState::kill_auto_splitter_if_it_doesnt_react` (main.rs
lines 175-182), returning the number of interrupt signals sent:
nothing happens when no module is loaded; otherwise one interrupt is sent
exactly when the bounded `try_lock` fails to obtain the guard. -/
def kill_auto_splitter_count (auto_splitter_avail : Option (Nat → Bool)) : Nat :=
  match auto_splitter_avail with
  | none => 0
  | some avail => if (SharedState.try_lock avail).guard.isNone then 1 else 0

/-! ## Tick scheduler arithmetic (main.rs lines 198-271)

Instants are `Nat` nanoseconds.  One loop iteration of `runtime_thread`
ends with lines 258-269: advance `next_tick` by the tick rate and sleep
until it, or reset `next_tick` to the current time when it was already
missed. -/

/-- Mirrors `Instant::checked_duration_since`: `some (a - b)` when `b ≤ a`,
otherwise `none`. -/
def checked_duration_since (a b : Nat) : Option Nat :=
  if b ≤ a then some (a - b) else none

/-- Mirrors the idle rate `Duration::from_secs(1) / 10` (main.rs line 255),
in nanoseconds. -/
def idle_tick_rate : Nat := 1000000000 / 10

/-- Mirrors main.rs lines 258-269: given the scheduler's `next_tick`, the
iteration's `tick_rate` and the current instant `now`, returns the new
`next_tick` together with the slept duration (0 when the deadline was
already missed, in which case the next tick fires immediately and
`next_tick` is reset to `now`). -/
def schedule_next_tick (next_tick tick_rate now : Nat) : Nat × Nat :=
  let next2 := next_tick + tick_rate
  match checked_duration_since next2 now with
  | some sleep_time => (next2, sleep_time)
  | none => (now, 0)

/-! ## Tick statistics (main.rs lines 75-84 and 230-243) -/

/-- The scheduler-maintained tick statistics of `SharedState`:
`slowest_tick` in nanoseconds, the `f64` EWMA `avg_tick_secs` as an exact
rational, and the `tick_times` histogram as the list of recorded
nanosecond values. -/
structure TickStatistics where
  slowest_tick : Nat
  avg_tick_secs : ℚ
  tick_times : List Nat
  deriving DecidableEq, Repr

/-- Mirrors `Duration::as_secs_f64` on a nanosecond count. -/
def nanos_as_secs (n : Nat) : ℚ := (n : ℚ) / 1000000000

/-- Mirrors the statistics update of one scheduler iteration (main.rs
lines 230-243): raise `slowest_tick` when exceeded, record the tick into
the histogram, and update the EWMA as
`avg = 0.999 * avg + 0.001 * elapsed_seconds`. -/
def record_tick (st : TickStatistics) (time_of_tick : Nat) : TickStatistics :=
  { slowest_tick :=
      if time_of_tick > st.slowest_tick then time_of_tick else st.slowest_tick
    avg_tick_secs := 0.999 * st.avg_tick_secs + 0.001 * nanos_as_secs time_of_tick
    tick_times := st.tick_times ++ [time_of_tick] }

/-- The statistics as initialized in `main` (main.rs lines 79-82): zero
slowest tick, zero average, empty histogram. -/
def initTickStatistics : TickStatistics := ⟨0, 0, []⟩

/-! ## Module load lifecycle (main.rs lines 872-982)

`AppState::load` talks to the file system and to the wasm engine; those
collaborators are passed in as a `LoadEnv` of oracles.  Compiled modules
and settings maps are opaque to the host, so they are embedded as plain
tokens (`String`). -/

/-- Opaque token standing for `CompiledAutoSplitter`. -/
abbrev CompiledModule := String

/-- Opaque token standing for a `settings::Map` snapshot. -/
abbrev SettingsMap := String

/-- The parts of a running `AutoSplitter` instance the load path reads: the
settings snapshot `settings_map()` returns, and the availability of its
execution lock across `try_lock` attempts (for the liveness guard). -/
structure RunningInstance where
  settings_map : SettingsMap
  lock_avail : Nat → Bool

/-- The fields of `struct SharedState` (main.rs lines 163-172) that
`AppState::load` touches: the swappable module handle and the tick
statistics. -/
structure SharedStateM where
  auto_splitter : Option RunningInstance
  slowest_tick : Nat
  avg_tick_secs : ℚ
  tick_times : List Nat

/-- The fields of `struct AppState` (main.rs lines 278-289) that
`AppState::load` touches. -/
structure AppStateM where
  path : Option String
  script_path : Option String
  module_modified_time : Option Nat
  module : Option CompiledModule
  shared : SharedStateM
  timer : DebuggerTimerState

/-- Mirrors `enum Load` (main.rs lines 872-876). -/
inductive Load
  | file (path : String)
  | reload
  | restart

/-- Environment of `AppState::load`: the file system read, the engine's
`compile` and `instantiate`, `fs::metadata(..).modified()`, and the
wall-clock string used for log timestamps. -/
structure LoadEnv where
  fsRead : String → Except String String
  compile : String → Except String CompiledModule
  instantiate : CompiledModule → Option SettingsMap → Option String →
    Except String RunningInstance
  modifiedTime : String → Option Nat
  now : String

/-- Mirrors main.rs lines 894-900: `fs::read(path)` with its anyhow
context, chained into `runtime.compile` with its context.  The logged
message is the rendered error. -/
def read_and_compile (env : LoadEnv) (path : String) : Except String CompiledModule :=
  match env.fsRead path with
  | .error e => .error ("Failed loading the auto splitter from the file system.: " ++ e)
  | .ok data =>
    match env.compile data with
    | .error e => .error ("Failed loading the auto splitter.: " ++ e)
    | .ok m => .ok m

/-- Mirrors main.rs lines 893-913: when the operation is a Load or Reload
and a path is recorded, read and compile the file, storing the result (or
`none` plus an error log entry) in `module` and refreshing
`module_modified_time`; returns the state together with the
`succeeded`-so-far flag. -/
def compile_stage (env : LoadEnv) (s : AppStateM) (doCompile : Bool) :
    AppStateM × Bool :=
  match doCompile, s.path with
  | true, some path =>
    match read_and_compile env path with
    | .ok m =>
      ({ s with module := some m, module_modified_time := env.modifiedTime path }, true)
    | .error e =>
      ({ s with
          module := none
          module_modified_time := env.modifiedTime path
          timer := s.timer.log env.now e (.runtime .error) }, false)
  | _, _ => (s, true)

/-- Outcome of the instantiate step: the state (with any error logged),
the `succeeded`-so-far flag, the arguments `instantiate` was called with
(`none` when it was not attempted), and the new instance. -/
structure InstOutcome where
  state : AppStateM
  ok : Bool
  args : Option (Option SettingsMap × Option String)
  new_auto : Option RunningInstance

/-- Mirrors main.rs lines 915-937: when a compiled module is present,
instantiate it with the carried settings map and the optional script
path; a failure is logged and yields no instance. -/
def instantiate_stage (env : LoadEnv) (s : AppStateM) (settings_map : Option SettingsMap) :
    InstOutcome :=
  match s.module with
  | some m =>
    match env.instantiate m settings_map s.script_path with
    | .ok r => ⟨s, true, some (settings_map, s.script_path), some r⟩
    | .error e =>
      ⟨{ s with
          timer := s.timer.log env.now
            ("Failed starting the auto splitter.: " ++ e) (.runtime .error) },
        false, some (settings_map, s.script_path), none⟩
  | none => ⟨s, true, none, none⟩

/-- Result of `AppState::load`: the new app state, the arguments passed to
`instantiate` (if it was attempted), and the number of interrupt signals
the liveness guard sent. -/
structure LoadOutcome where
  state : AppStateM
  instantiate_args : Option (Option SettingsMap × Option String)
  interrupts : Nat

/-- Mirrors main.rs lines 880-882: `Load::File` records the new source
path; Reload and Restart keep the recorded one. -/
def record_path (s0 : AppStateM) : Load → AppStateM
  | .file path => { s0 with path := some path }
  | _ => s0

/-- Mirrors main.rs lines 880-889: `Load::File` discards any carried-over
settings snapshot; Reload and Restart read the currently active
instance's settings map (before that instance is retired). -/
def carried_settings_map (s0 : AppStateM) : Load → Option SettingsMap
  | .file _ => none
  | _ => Option.map (fun r => r.settings_map) s0.shared.auto_splitter

/-- Mirrors the pattern guard of main.rs line 893: only Load and Reload
read and compile the file; Restart reuses the compiled module. -/
def load_reads_file : Load → Bool
  | .restart => false
  | _ => true

/-- Mirrors main.rs lines 949-951: only a fresh `Load::File` calls
`timer.clear()`. -/
def clear_on_fresh_load (t : DebuggerTimerState) : Load → DebuggerTimerState
  | .file _ => t.clear
  | _ => t

/-- Mirrors main.rs lines 956-960: the success log message distinguishing
Load, Reload and Restart. -/
def success_message : Load → String
  | .file _ => "Auto splitter loaded."
  | .reload => "Auto splitter reloaded."
  | .restart => "Auto splitter restarted."

/-- Mirrors `AppState::load` (main.rs lines 879-965), step by step:
record the path / read the old settings map (lines 880-889), read and
compile (lines 893-913), instantiate (lines 915-937), retire the old
instance through the liveness guard and publish the new handle (lines
939-940), reset the tick statistics (lines 942-946), clear the timer for
a fresh Load and clear the variable map (lines 948-952), and append the
success log entry when nothing failed (lines 954-964). -/
def AppState.load (env : LoadEnv) (s0 : AppStateM) (ld : Load) : LoadOutcome :=
  let s1 : AppStateM := record_path s0 ld
  let settings_map : Option SettingsMap := carried_settings_map s0 ld
  let c := compile_stage env s1 (load_reads_file ld)
  let i := instantiate_stage env c.1 settings_map
  let succeeded := c.2 && i.ok
  let interrupts :=
    kill_auto_splitter_count
      (Option.map (fun r => r.lock_avail) i.state.shared.auto_splitter)
  let shared2 : SharedStateM :=
    { i.state.shared with
      auto_splitter := i.new_auto
      slowest_tick := 0
      avg_tick_secs := 0
      tick_times := [] }
  let t1 : DebuggerTimerState := clear_on_fresh_load i.state.timer ld
  let t2 : DebuggerTimerState := { t1 with vars := [] }
  let t3 : DebuggerTimerState :=
    if succeeded then t2.log env.now (success_message ld) (.runtime .info) else t2
  { state := { i.state with shared := shared2, timer := t3 }
    instantiate_args := i.args
    interrupts := interrupts }

/-! ## Concrete inputs used by witnesses and counterexamples -/

/-- A pre-existing log entry, used to observe what happens to the log
history across a fresh Load. -/
def oldLogEntry : LogMessage := ⟨"11:00:00", "old entry", .runtime .info⟩

/-- A non-trivial timer state with one pre-existing log entry. -/
def timerW : DebuggerTimerState :=
  ⟨.running, 7, .running, 2, [("k", "v")], [oldLogEntry], 0⟩

/-- A running instance whose execution lock is immediately available. -/
def instOld : RunningInstance := ⟨"oldmap", fun _ => true⟩

/-- An app state with no module loaded and non-zero tick statistics. -/
def appW : AppStateM := ⟨none, none, none, none, ⟨none, 5, 1, [3]⟩, timerW⟩

/-- An app state with a recorded path, a compiled module and an active
instance, ready for a Reload. -/
def appReload : AppStateM :=
  ⟨some "x", none, none, some "module", ⟨some instOld, 5, 1, [3]⟩, timerW⟩

/-- An environment in which every external operation succeeds. -/
def envOk : LoadEnv :=
  ⟨fun _ => .ok "bytes", fun _ => .ok "module",
   fun _ _ _ => .ok ⟨"newmap", fun _ => true⟩, fun _ => some 1, "12:00:00"⟩

/-- An environment in which the engine rejects every compile. -/
def envCompileFail : LoadEnv :=
  ⟨fun _ => .ok "bytes", fun _ => .error "compile failed",
   fun _ _ _ => .ok ⟨"newmap", fun _ => true⟩, fun _ => some 1, "12:00:00"⟩

/-- The log history is only ever appended to: `new` is `old` followed by
some extra entries. -/
def AppendOnly (old new : List LogMessage) : Prop :=
  ∃ extra, new = old ++ extra

/-! ## Helper lemmas -/

theorem log_timer_state (s : DebuggerTimerState) (now m : String) (ty : LogType) :
    (s.log now m ty).timer_state = s.timer_state := rfl

theorem log_game_time (s : DebuggerTimerState) (now m : String) (ty : LogType) :
    (s.log now m ty).game_time = s.game_time := rfl

theorem log_game_time_state (s : DebuggerTimerState) (now m : String) (ty : LogType) :
    (s.log now m ty).game_time_state = s.game_time_state := rfl

theorem log_split_index (s : DebuggerTimerState) (now m : String) (ty : LogType) :
    (s.log now m ty).split_index = s.split_index := rfl

theorem log_vars (s : DebuggerTimerState) (now m : String) (ty : LogType) :
    (s.log now m ty).vars = s.vars := rfl

theorem log_logs (s : DebuggerTimerState) (now m : String) (ty : LogType) :
    (s.log now m ty).logs = s.logs ++ [⟨now, m, ty⟩] := rfl

theorem clear_logs (s : DebuggerTimerState) : s.clear.logs = s.logs := rfl

theorem appendOnly_refl (l : List LogMessage) : AppendOnly l l := ⟨[], by simp⟩

theorem appendOnly_log (l : List LogMessage) (s : DebuggerTimerState)
    (now m : String) (ty : LogType) (h : AppendOnly l s.logs) :
    AppendOnly l (s.log now m ty).logs := by
  obtain ⟨extra, hx⟩ := h
  exact ⟨extra ++ [⟨now, m, ty⟩], by simp [DebuggerTimerState.log, hx]⟩

theorem compile_stage_shared (env : LoadEnv) (s : AppStateM) (b : Bool) :
    (compile_stage env s b).1.shared = s.shared := by
  unfold compile_stage
  split
  · split <;> rfl
  · rfl

theorem compile_stage_script_path (env : LoadEnv) (s : AppStateM) (b : Bool) :
    (compile_stage env s b).1.script_path = s.script_path := by
  unfold compile_stage
  split
  · split <;> rfl
  · rfl

theorem compile_stage_logs (env : LoadEnv) (s : AppStateM) (b : Bool) :
    AppendOnly s.timer.logs (compile_stage env s b).1.timer.logs := by
  unfold compile_stage
  split
  · split
    · exact appendOnly_refl _
    · exact appendOnly_log _ _ _ _ _ (appendOnly_refl _)
  · exact appendOnly_refl _

theorem instantiate_stage_shared (env : LoadEnv) (s : AppStateM)
    (sm : Option SettingsMap) :
    (instantiate_stage env s sm).state.shared = s.shared := by
  unfold instantiate_stage
  split
  · split <;> rfl
  · rfl

theorem instantiate_stage_logs (env : LoadEnv) (s : AppStateM)
    (sm : Option SettingsMap) :
    AppendOnly s.timer.logs (instantiate_stage env s sm).state.timer.logs := by
  unfold instantiate_stage
  split
  · split
    · exact appendOnly_refl _
    · exact appendOnly_log _ _ _ _ _ (appendOnly_refl _)
  · exact appendOnly_refl _

/-! ## Claims -/

/-- C3: UndoSplit never drives split_index below 0 (Nat subtraction is
exactly the saturating decrement, and a zero index stays zero); from
phase Ended it transitions the phase to Running and then performs the
saturating decrement, and from phase Running it performs the saturating
decrement with the phase staying Running. -/
theorem c3_undo_split_saturating (now : String) (s : DebuggerTimerState) :
    (s.timer_state = .ended →
      (DebuggerTimer.undo_split now s).timer_state = .running ∧
      (DebuggerTimer.undo_split now s).split_index = s.split_index - 1) ∧
    (s.timer_state = .running →
      (DebuggerTimer.undo_split now s).timer_state = .running ∧
      (DebuggerTimer.undo_split now s).split_index = s.split_index - 1) ∧
    (s.split_index = 0 → (DebuggerTimer.undo_split now s).split_index = 0) := by
  obtain ⟨ts, gt, gts, si, v, lg, ll⟩ := s
  cases ts <;>
    simp [DebuggerTimer.undo_split, DebuggerTimerState.log] <;>
    omega

/-- C3 witness: from Ended with split_index 0, UndoSplit yields Running
with split_index still 0. -/
theorem c3_witness :
    (DebuggerTimer.undo_split "t" ⟨.ended, 0, .notInitialized, 0, [], [], 0⟩).timer_state
        = .running ∧
    (DebuggerTimer.undo_split "t" ⟨.ended, 0, .notInitialized, 0, [], [], 0⟩).split_index
        = 0 :=
  ⟨((c3_undo_split_saturating "t" ⟨.ended, 0, .notInitialized, 0, [], [], 0⟩).1 rfl).1,
   (c3_undo_split_saturating "t" ⟨.ended, 0, .notInitialized, 0, [], [], 0⟩).2.2 rfl⟩

/-- C4: for every prior timer state, Reset yields phase NotRunning,
split_index 0, game_time 0, game_time_phase NotInitialized and an empty
variable mapping. -/
theorem c4_reset (now : String) (s : DebuggerTimerState) :
    (DebuggerTimer.reset now s).timer_state = .notRunning ∧
    (DebuggerTimer.reset now s).split_index = 0 ∧
    (DebuggerTimer.reset now s).game_time = 0 ∧
    (DebuggerTimer.reset now s).game_time_state = .notInitialized ∧
    (DebuggerTimer.reset now s).vars = [] := by
  simp [DebuggerTimer.reset, DebuggerTimerState.reset, DebuggerTimerState.log]

/-- C5: Split and SkipSplit increment split_index by exactly 1 if and
only if the phase is Running, and leave the entire timer state unchanged
in every other phase. -/
theorem c5_split_skip_split (now : String) (s : DebuggerTimerState) :
    ((DebuggerTimer.split now s).split_index = s.split_index + 1 ↔
      s.timer_state = .running) ∧
    (s.timer_state ≠ .running → DebuggerTimer.split now s = s) ∧
    ((DebuggerTimer.skip_split now s).split_index = s.split_index + 1 ↔
      s.timer_state = .running) ∧
    (s.timer_state ≠ .running → DebuggerTimer.skip_split now s = s) := by
  obtain ⟨ts, gt, gts, si, v, lg, ll⟩ := s
  cases ts <;>
    simp [DebuggerTimer.split, DebuggerTimer.skip_split, DebuggerTimerState.log]

/-- C5 witness: a Running split increments the index, a Paused skip-split
leaves the state untouched. -/
theorem c5_witness :
    (DebuggerTimer.split "t" ⟨.running, 0, .notInitialized, 3, [], [], 0⟩).split_index
        = 3 + 1 ∧
    DebuggerTimer.skip_split "t" ⟨.paused, 0, .notInitialized, 3, [], [], 0⟩
        = ⟨.paused, 0, .notInitialized, 3, [], [], 0⟩ :=
  ⟨(c5_split_skip_split "t" ⟨.running, 0, .notInitialized, 3, [], [], 0⟩).1.mpr rfl,
   (c5_split_skip_split "t" ⟨.paused, 0, .notInitialized, 3, [], [], 0⟩).2.2.2
     (by decide)⟩

/-- C10: from a NotRunning or Paused phase, UndoSplit is a complete
no-op: the whole state, logs included, is unchanged. -/
theorem c10_undo_split_noop (now : String) (s : DebuggerTimerState)
    (h : s.timer_state = .notRunning ∨ s.timer_state = .paused) :
    DebuggerTimer.undo_split now s = s := by
  obtain ⟨ts, gt, gts, si, v, lg, ll⟩ := s
  rcases h with h | h <;> subst h <;>
    simp [DebuggerTimer.undo_split]

/-- C10 witness: UndoSplit on a concrete Paused state returns it
unchanged. -/
theorem c10_witness :
    DebuggerTimer.undo_split "t" ⟨.paused, 4, .running, 5, [("a", "b")], [], 1⟩
      = ⟨.paused, 4, .running, 5, [("a", "b")], [], 1⟩ :=
  c10_undo_split_noop "t" ⟨.paused, 4, .running, 5, [("a", "b")], [], 1⟩ (Or.inr rfl)

theorem tryLockLoop_attempts_le (avail : Nat → Bool) (fuel : Nat) :
    ∀ i, (tryLockLoop avail fuel i).attempts ≤ fuel := by
  induction fuel with
  | zero => intro i; simp [tryLockLoop]
  | succ f ih =>
    intro i
    simp only [tryLockLoop]
    split
    · simp
    · have := ih (i + 1)
      simpa using Nat.succ_le_succ this

theorem tryLockLoop_sleeps_le (avail : Nat → Bool) (fuel : Nat) :
    ∀ i, (tryLockLoop avail fuel i).sleeps ≤ fuel := by
  induction fuel with
  | zero => intro i; simp [tryLockLoop]
  | succ f ih =>
    intro i
    simp only [tryLockLoop]
    split
    · simp
    · have := ih (i + 1)
      simpa using Nat.succ_le_succ this

theorem tryLockLoop_all_fail (avail : Nat → Bool) (fuel : Nat) :
    ∀ i, (∀ j, i ≤ j → j < i + fuel → avail j = false) →
      tryLockLoop avail fuel i = ⟨none, fuel, fuel⟩ := by
  induction fuel with
  | zero => intro i _; simp [tryLockLoop]
  | succ f ih =>
    intro i h
    have hi : avail i = false := h i (Nat.le_refl i) (by omega)
    have hrec := ih (i + 1) (fun j h1 h2 => h j (by omega) (by omega))
    simp [tryLockLoop, hi, hrec]

/-- C2: retiring the active module attempts to acquire its execution lock
at most 100 times with a 1ms sleep after each failed attempt; when no
attempt succeeds, exactly one interrupt signal is sent and the swap
proceeds; when some attempt succeeds, no interrupt is sent.  The last
conjunct ties this to `AppState::load`: the interrupts a load-family
operation sends are exactly those of the liveness guard applied to the
previously active instance. -/
theorem c2_liveness_guard (avail : Nat → Bool) (env : LoadEnv) (s : AppStateM)
    (ld : Load) :
    (SharedState.try_lock avail).attempts ≤ 100 ∧
    (SharedState.try_lock avail).sleeps ≤ 100 ∧
    ((∀ i, i < 100 → avail i = false) →
      SharedState.try_lock avail = ⟨none, 100, 100⟩ ∧
      kill_auto_splitter_count (some avail) = 1) ∧
    (∀ g, (SharedState.try_lock avail).guard = some g →
      kill_auto_splitter_count (some avail) = 0) ∧
    (AppState.load env s ld).interrupts =
      kill_auto_splitter_count
        (Option.map (fun r => r.lock_avail) s.shared.auto_splitter) := by
  refine ⟨tryLockLoop_attempts_le avail 100 0, tryLockLoop_sleeps_le avail 100 0,
    ?_, ?_, ?_⟩
  · intro h
    have hfail : tryLockLoop avail 100 0 = ⟨none, 100, 100⟩ :=
      tryLockLoop_all_fail avail 100 0 (fun j _ h2 => h j (by omega))
    refine ⟨hfail, ?_⟩
    simp [kill_auto_splitter_count, SharedState.try_lock, hfail]
  · intro g hg
    simp [kill_auto_splitter_count, SharedState.try_lock] at hg ⊢
    simp [hg]
  · show (AppState.load env s ld).interrupts = _
    unfold AppState.load
    simp only [instantiate_stage_shared, compile_stage_shared]
    cases ld <;> rfl

/-- C2 witness: with a lock that is never available, try_lock makes
exactly 100 attempts, sleeps 100 times, obtains no guard, and exactly one
interrupt is sent. -/
theorem c2_witness :
    SharedState.try_lock (fun _ => false) = ⟨none, 100, 100⟩ ∧
    kill_auto_splitter_count (some fun _ => false) = 1 :=
  (c2_liveness_guard (fun _ => false) envOk appW Load.reload).2.2.1
    (fun _ _ => rfl)

/-- C6: after each scheduler iteration `next_tick` is advanced by exactly
one `tick_rate` and the loop sleeps until it; when the wall clock has
already passed `next_tick + tick_rate`, `next_tick` is reset to the
current time with zero sleep, so exactly one tick fires immediately, and
the following iteration (finishing at any `now2` within one tick_rate of
the reset point) again sleeps until a full `tick_rate` after the reset —
no burst of catch-up ticks. -/
theorem c6_scheduler_no_burst (next_tick tick_rate now now2 : Nat) :
    (now ≤ next_tick + tick_rate →
      schedule_next_tick next_tick tick_rate now =
        (next_tick + tick_rate, next_tick + tick_rate - now)) ∧
    (next_tick + tick_rate < now →
      schedule_next_tick next_tick tick_rate now = (now, 0) ∧
      (now2 ≤ now + tick_rate →
        schedule_next_tick now tick_rate now2 =
          (now + tick_rate, now + tick_rate - now2))) := by
  refine ⟨fun h => ?_, fun h => ⟨?_, fun h2 => ?_⟩⟩
  · simp [schedule_next_tick, checked_duration_since, h]
  · simp [schedule_next_tick, checked_duration_since, Nat.not_le.mpr h]
  · simp [schedule_next_tick, checked_duration_since, h2]

/-- C6 witness: with tick_rate 10, an overrun finish at 25 (deadline 10)
fires immediately and resets next_tick to 25; the following iteration
finishing at 27 sleeps 8 until 35. -/
theorem c6_witness :
    schedule_next_tick 0 10 25 = (25, 0) ∧
    schedule_next_tick 25 10 27 = (25 + 10, 25 + 10 - 27) :=
  ⟨((c6_scheduler_no_burst 0 10 25 27).2 (by decide)).1,
   ((c6_scheduler_no_burst 0 10 25 27).2 (by decide)).2 (by decide)⟩

theorem fold_zero_ticks (l : List Nat) :
    ∀ st : TickStatistics, st.slowest_tick = 0 → st.avg_tick_secs = 0 →
      (∀ x ∈ l, x = 0) →
      (l.foldl record_tick st).slowest_tick = 0 ∧
      (l.foldl record_tick st).avg_tick_secs = 0 := by
  induction l with
  | nil => intro st h0 h1 _; exact ⟨h0, h1⟩
  | cons x xs ih =>
    intro st h0 h1 hz
    have hx : x = 0 := hz x (by simp)
    subst hx
    have hs : (record_tick st 0).slowest_tick = 0 := by
      simp [record_tick, h0]
    have ha : (record_tick st 0).avg_tick_secs = 0 := by
      simp [record_tick, h1, nanos_as_secs]
    exact ih (record_tick st 0) hs ha (fun y hy => hz y (by simp [hy]))

/-- C7: each tick updates the moving average as
`avg = 0.999 * avg + 0.001 * elapsed_seconds` and sets `slowest_tick` to
the maximum of its old value and the measured duration (so it is raised
exactly when the measured duration exceeds it); concretely, starting from
the initial statistics, any number of 0ns ticks followed by a single
250ms tick leaves `slowest_tick = 250ms` and
`avg_tick_secs = 0.001 * 0.25 = 1/4000`. -/
theorem c7_tick_statistics (st : TickStatistics) (t n : Nat) :
    (record_tick st t).avg_tick_secs =
      0.999 * st.avg_tick_secs + 0.001 * nanos_as_secs t ∧
    (record_tick st t).slowest_tick = max st.slowest_tick t ∧
    (record_tick ((List.replicate n 0).foldl record_tick initTickStatistics)
        250000000).slowest_tick = 250000000 ∧
    (record_tick ((List.replicate n 0).foldl record_tick initTickStatistics)
        250000000).avg_tick_secs = 1 / 4000 := by
  have hz := fold_zero_ticks (List.replicate n 0) initTickStatistics rfl rfl
    (by intro x hx; exact List.eq_of_mem_replicate hx)
  refine ⟨rfl, ?_, ?_, ?_⟩
  · simp only [record_tick]
    split <;> omega
  · simp [record_tick, hz.1]
  · simp [record_tick, hz.2, nanos_as_secs]
    norm_num

theorem appendOnly_trans (l1 l2 l3 : List LogMessage)
    (h12 : AppendOnly l1 l2) (h23 : AppendOnly l2 l3) : AppendOnly l1 l3 := by
  obtain ⟨a, ha⟩ := h12
  obtain ⟨b, hb⟩ := h23
  exact ⟨a ++ b, by simp [hb, ha]⟩

theorem load_logs_appendOnly (env : LoadEnv) (s : AppStateM) (ld : Load) :
    AppendOnly s.timer.logs (AppState.load env s ld).state.timer.logs := by
  cases ld with
  | file p =>
    refine appendOnly_trans _ _ _
      (appendOnly_trans _ _ _
        (compile_stage_logs env { s with path := some p } true)
        (instantiate_stage_logs env
          (compile_stage env { s with path := some p } true).1 none)) ?_
    simp only [AppState.load, record_path, carried_settings_map, load_reads_file,
      clear_on_fresh_load, success_message]
    split
    · exact appendOnly_log _ _ _ _ _ (appendOnly_refl _)
    · exact appendOnly_refl _
  | reload =>
    refine appendOnly_trans _ _ _
      (appendOnly_trans _ _ _
        (compile_stage_logs env s true)
        (instantiate_stage_logs env (compile_stage env s true).1
          (Option.map (fun r => r.settings_map) s.shared.auto_splitter))) ?_
    simp only [AppState.load, record_path, carried_settings_map, load_reads_file,
      clear_on_fresh_load, success_message]
    split
    · exact appendOnly_log _ _ _ _ _ (appendOnly_refl _)
    · exact appendOnly_refl _
  | restart =>
    refine appendOnly_trans _ _ _
      (appendOnly_trans _ _ _
        (compile_stage_logs env s false)
        (instantiate_stage_logs env (compile_stage env s false).1
          (Option.map (fun r => r.settings_map) s.shared.auto_splitter))) ?_
    simp only [AppState.load, record_path, carried_settings_map, load_reads_file,
      clear_on_fresh_load, success_message]
    split
    · exact appendOnly_log _ _ _ _ _ (appendOnly_refl _)
    · exact appendOnly_refl _

/-- C1 (amended): after every load-family operation the tick statistics
are reset (slowest_tick 0, EWMA average 0, histogram empty) and the
timer's variable mapping is cleared; a fresh Load additionally resets the
timer state machine fields (phase NotRunning, split_index 0, game_time 0,
game_time_phase NotInitialized).  The log history, however, is never
cleared by any load-family operation: it is only ever appended to. -/
theorem c1_load_family_resets (env : LoadEnv) (s : AppStateM) (ld : Load) :
    (AppState.load env s ld).state.shared.slowest_tick = 0 ∧
    (AppState.load env s ld).state.shared.avg_tick_secs = 0 ∧
    (AppState.load env s ld).state.shared.tick_times = [] ∧
    (AppState.load env s ld).state.timer.vars = [] ∧
    (∀ p, ld = .file p →
      (AppState.load env s ld).state.timer.timer_state = .notRunning ∧
      (AppState.load env s ld).state.timer.split_index = 0 ∧
      (AppState.load env s ld).state.timer.game_time = 0 ∧
      (AppState.load env s ld).state.timer.game_time_state = .notInitialized) ∧
    AppendOnly s.timer.logs (AppState.load env s ld).state.timer.logs := by
  refine ⟨rfl, rfl, rfl, ?_, ?_, load_logs_appendOnly env s ld⟩
  · simp only [AppState.load, record_path, carried_settings_map, load_reads_file,
      clear_on_fresh_load, success_message]
    split <;> rfl
  · rintro p rfl
    simp only [AppState.load, record_path, carried_settings_map, load_reads_file,
      clear_on_fresh_load, success_message]
    refine ⟨?_, ?_, ?_, ?_⟩ <;> (split <;> rfl)

/-- C1 counterexample: a fresh, successful Load does not clear the log
history.  Starting from a state whose log holds one old entry, the state
after `load(Load::File "x")` still holds that entry (followed by the
success entry), refuting "a fresh Load additionally clears the entire
log history". -/
theorem c1_counterexample :
    appW.timer.logs = [oldLogEntry] ∧
    (AppState.load envOk appW (Load.file "x")).state.timer.logs =
      [oldLogEntry, ⟨"12:00:00", "Auto splitter loaded.", .runtime .info⟩] := by
  constructor <;> rfl

/-- C1 witness: the amended theorem applied to the concrete failing-load
input, discharging the fresh-Load hypothesis. -/
theorem c1_witness :
    (AppState.load envOk appW (Load.file "x")).state.timer.vars = [] ∧
    (AppState.load envOk appW (Load.file "x")).state.timer.timer_state = .notRunning :=
  ⟨(c1_load_family_resets envOk appW (Load.file "x")).2.2.2.1,
   ((c1_load_family_resets envOk appW (Load.file "x")).2.2.2.2.1 "x" rfl).1⟩

/-- C8: a `Load(path)` whose file read or compile fails leaves the module
handle absent and the compiled-module reference cleared, never calls
`instantiate`, appends exactly one Error log entry (and no success
entry), and resets the tick statistics to empty. -/
theorem c8_failed_load (env : LoadEnv) (s : AppStateM) (p e : String)
    (h : read_and_compile env p = .error e) :
    (AppState.load env s (.file p)).state.shared.auto_splitter = none ∧
    (AppState.load env s (.file p)).state.module = none ∧
    (AppState.load env s (.file p)).instantiate_args = none ∧
    (AppState.load env s (.file p)).state.timer.logs =
      s.timer.logs ++ [⟨env.now, e, .runtime .error⟩] ∧
    (AppState.load env s (.file p)).state.shared.slowest_tick = 0 ∧
    (AppState.load env s (.file p)).state.shared.avg_tick_secs = 0 ∧
    (AppState.load env s (.file p)).state.shared.tick_times = [] := by
  simp [AppState.load, record_path, carried_settings_map, load_reads_file,
    clear_on_fresh_load, compile_stage, instantiate_stage, h,
    DebuggerTimerState.log, DebuggerTimerState.clear, DebuggerTimerState.reset]

/-- C8 witness: the theorem applied to a concrete environment whose
compile is rejected. -/
theorem c8_witness :
    (AppState.load envCompileFail appW (.file "x")).state.shared.auto_splitter = none ∧
    (AppState.load envCompileFail appW (.file "x")).instantiate_args = none ∧
    (AppState.load envCompileFail appW (.file "x")).state.timer.logs =
      appW.timer.logs ++
        [⟨envCompileFail.now, "Failed loading the auto splitter.: compile failed",
          .runtime .error⟩] :=
  ⟨(c8_failed_load envCompileFail appW "x" _ rfl).1,
   (c8_failed_load envCompileFail appW "x" _ rfl).2.2.1,
   (c8_failed_load envCompileFail appW "x" _ rfl).2.2.2.1⟩

theorem instantiate_stage_args (env : LoadEnv) (s : AppStateM)
    (sm : Option SettingsMap) (a : Option SettingsMap × Option String)
    (h : (instantiate_stage env s sm).args = some a) : a = (sm, s.script_path) := by
  unfold instantiate_stage at h
  split at h
  · split at h <;> simp_all
  · simp_all

/-- C9: `Load(path)` instantiates the new module with no settings
snapshot, while Reload and Restart pass the settings snapshot read from
the previously active instance (the pre-state's handle, read before that
instance is retired), so user configuration survives recompilation. -/
theorem c9_settings_carryover (env : LoadEnv) (s : AppStateM) (p : String)
    (a1 a2 a3 : Option SettingsMap × Option String) :
    ((AppState.load env s (.file p)).instantiate_args = some a1 → a1.1 = none) ∧
    ((AppState.load env s .reload).instantiate_args = some a2 →
      a2.1 = Option.map (fun r => r.settings_map) s.shared.auto_splitter) ∧
    ((AppState.load env s .restart).instantiate_args = some a3 →
      a3.1 = Option.map (fun r => r.settings_map) s.shared.auto_splitter) := by
  refine ⟨fun h => ?_, fun h => ?_, fun h => ?_⟩ <;>
  · simp only [AppState.load, record_path, carried_settings_map,
      load_reads_file] at h
    have ha := instantiate_stage_args _ _ _ _ h
    simp [ha]

/-- C9 witness: a concrete Reload passes the previously active instance's
settings snapshot ("oldmap") to `instantiate`. -/
theorem c9_witness :
    (some "oldmap" : Option SettingsMap)
      = Option.map (fun r => r.settings_map) appReload.shared.auto_splitter :=
  (c9_settings_carryover envOk appReload "x" (none, none) (some "oldmap", none)
    (none, none)).2.1 (by decide)
